import Mathlib

/-!
Verification of the TDH3 firmware-flashing tool (`src/main.rs`) via a shallow
embedding: the pure framing helpers become Lean functions, and the I/O-driven
handshake and transfer loops become recursive functions over an explicit
script of transport events, recording every transport write and operation.
Machine integers are modelled as `Nat`/`Int` with explicit two's-complement
wrapping where the Rust arithmetic can overflow.
-/

namespace TDH3Flash

/-- Exit code `ExitCodes::Ok` (src/main.rs line 12). -/
def ExitCodes.Ok : Nat := 0

/-- Exit code `ExitCodes::FileError` (src/main.rs line 13). -/
def ExitCodes.FileError : Nat := 1

/-- Exit code `ExitCodes::FilesizeError` (src/main.rs line 14). -/
def ExitCodes.FilesizeError : Nat := 2

/-- Exit code `ExitCodes::DeviceError` (src/main.rs line 15). -/
def ExitCodes.DeviceError : Nat := 3

/-- Exit code `ExitCodes::InitWriteError` (src/main.rs line 16). -/
def ExitCodes.InitWriteError : Nat := 4

/-- Exit code `ExitCodes::WriteError` (src/main.rs line 17). -/
def ExitCodes.WriteError : Nat := 5

/-- Exit code `ExitCodes::AckError` (src/main.rs line 18). -/
def ExitCodes.AckError : Nat := 6

/-- Exit code `ExitCodes::ParametersError` (src/main.rs line 19). -/
def ExitCodes.ParametersError : Nat := 999

/-- Two's-complement wrap of an integer into the `i32` range, the behaviour of
release-mode Rust arithmetic on `i32` overflow. -/
def wrap32 (x : Int) : Int := (x + 2147483648) % 4294967296 - 2147483648

/-- Embedding of `get_padded_length` (src/main.rs lines 59-63).  The source
computes `((content_length as f64 / 32.0).ceil() as i32) * 32`.  For
`contentLength < 2^53` the `usize → f64` conversion is exact, dividing by the
power of two `32.0` is exact, and `ceil` of that exact value is
`(contentLength + 31) / 32` in natural-number arithmetic; the `as i32` cast of
the (non-negative) ceiling saturates at `i32::MAX = 2147483647`; the final
`* 32` is `i32` multiplication, which wraps in release builds (a debug build
would abort on overflow instead — either way it is not the mathematical
product for large inputs).  The model is exact for every `contentLength`
below `2^53`; all theorems stay far below that. -/
def get_padded_length (contentLength : Nat) : Int :=
  wrap32 ((min ((contentLength + 31) / 32) 2147483647 * 32 : Nat) : Int)

/-- The 32-byte block of the padded firmware at block index `blk`:
`&padded_data[blk*32 .. blk*32+32]` (src/main.rs line 137). -/
def chunkOf (padded : List Nat) (blk : Nat) : List Nat :=
  (padded.drop (blk * 32)).take 32

/-- Embedding of the packet construction in `upload_firmware`
(src/main.rs lines 142-152): `packet[0]` starts at `0xa1` and is incremented
to `0xa2` when `(blk*32)+32 >= len` (the terminal block); `packet[1]` is
`((blk >> 8) & 0xff)`, `packet[2]` is `(blk & 0xff)`; `packet[3]` accumulates
`wrapping_add` of the 32 chunk bytes (modelled as `(a + b) % 256`, which is
`u8` wrapping addition since both operands are bytes); the chunk is then
appended.  `blk` is a non-negative `i32` in the source, modelled as `Nat`;
the terminal-block comparison happens in `i32`, modelled on `Int`. -/
def mkPacket (padded : List Nat) (len : Int) (blk : Nat) : List Nat :=
  (if (blk : Int) * 32 + 32 ≥ len then 0xa2 else 0xa1) ::
  ((blk >>> 8) &&& 0xff) :: (blk &&& 0xff) ::
  (chunkOf padded blk).foldl (fun a b => (a + b) % 256) 0 ::
  chunkOf padded blk

/-- Embedding of `read_byte_compat` (src/main.rs lines 174-182).  The input
models the outcome of `port.read` on a 1-byte buffer initialised to `0`:
`some b` is an `Ok` result with `b` the buffer's byte afterwards
(`b < 256` since it is a `u8`), `none` is an `Err` (timeout or error).
On `Ok` the source returns `buf[0] as i16`; on `Err` it returns `-1`. -/
def read_byte_compat (r : Option Nat) : Int :=
  match r with
  | some b => (b : Int)
  | none => -1

/-- `wrap32` is the identity on values already inside `[0, 2^31)`. -/
lemma wrap32_of_lt (x : Int) (h0 : 0 ≤ x) (h1 : x < 2147483648) : wrap32 x = x := by
  unfold wrap32
  have h : (x + 2147483648) % 4294967296 = x + 2147483648 :=
    Int.emod_eq_of_lt (by omega) (by omega)
  omega

/-- `get_padded_length` always yields a multiple of 32: the wrapped value
differs from the true product by a multiple of `2^32`, itself a multiple
of 32. -/
lemma get_padded_length_mod32 (n : Nat) : get_padded_length n % 32 = 0 := by
  unfold get_padded_length wrap32
  set x : Int := ((min ((n + 31) / 32) 2147483647 * 32 : Nat) : Int) with hx
  have h32 : (32 : Int) ∣ x := by
    rw [hx]
    exact Int.natCast_dvd_natCast.mpr (dvd_mul_left 32 _)
  have hmod : (x + 2147483648) % 4294967296 % 32 = (x + 2147483648) % 32 :=
    Int.emod_emod_of_dvd _ (by norm_num)
  omega

/-- On inputs below `2^31` (after padding), `get_padded_length` computes the
exact ceiling `(n + 31) / 32 * 32`. -/
lemma get_padded_length_eq (n : Nat) (hn : n ≤ 2147483616) :
    get_padded_length n = ((n + 31) / 32 * 32 : Nat) := by
  have hq : (n + 31) / 32 ≤ 67108863 := by
    have h1 : n + 31 ≤ 2147483647 := by omega
    calc (n + 31) / 32 ≤ 2147483647 / 32 := Nat.div_le_div_right h1
    _ = 67108863 := by norm_num
  have hmin : min ((n + 31) / 32) 2147483647 = (n + 31) / 32 :=
    min_eq_left (by omega)
  unfold get_padded_length
  rw [hmin]
  refine wrap32_of_lt _ (by positivity) ?_
  have h3 : ((n + 31) / 32 * 32 : Nat) < 2147483648 := by
    have h4 : (n + 31) / 32 * 32 ≤ 67108863 * 32 := Nat.mul_le_mul_right 32 hq
    omega
  exact_mod_cast Int.ofNat_lt.mpr h3

/-- C2 (amended): for every raw firmware length `n` with
`n ≤ 2147483616` (so that the padded value fits in the `i32` return type of
`get_padded_length`), the function returns `ceil(n/32)*32`; the result is a
multiple of 32, is `≥ n`, and is `< n + 32`; in particular
`get_padded_length 40001 = 40032`.  (The original claim's "for every
`n ≥ 0` … no failure mode" fails at `n = 2^31`, where the `i32` arithmetic
wraps — see the counterexample.) -/
theorem C2_padded_length_amended :
    (∀ n : Nat, n ≤ 2147483616 →
      get_padded_length n = ((n + 31) / 32 * 32 : Nat) ∧
      get_padded_length n % 32 = 0 ∧
      (n : Int) ≤ get_padded_length n ∧
      get_padded_length n < (n : Int) + 32) ∧
    get_padded_length 40001 = 40032 := by
  constructor
  · intro n hn
    have hval := get_padded_length_eq n hn
    refine ⟨hval, get_padded_length_mod32 n, ?_, ?_⟩
    · rw [hval]
      have h1 : n ≤ (n + 31) / 32 * 32 := by omega
      exact_mod_cast Int.ofNat_le.mpr h1
    · rw [hval]
      have h2 : (n + 31) / 32 * 32 < n + 32 := by omega
      exact_mod_cast Int.ofNat_lt.mpr h2
  · decide

/-- C2 counterexample: at raw length `n = 2^31 = 2147483648` the source's
`i32` multiplication wraps, returning `-2^31` rather than the mathematical
`ceil(n/32)*32 = 2^31`; in particular the claimed bound
`padded_length(n) ≥ n` fails there, so the claim does not hold for every
`n ≥ 0`. -/
theorem C2_padded_length_counterexample :
    get_padded_length 2147483648 = -2147483648 ∧
    ¬ ((2147483648 : Int) ≤ get_padded_length 2147483648) := by
  constructor
  · decide
  · decide

/-- C2 witness: the amended statement instantiated at `n = 40001`. -/
theorem C2_padded_length_witness :
    get_padded_length 40001 = ((40001 + 31) / 32 * 32 : Nat) ∧
    get_padded_length 40001 % 32 = 0 ∧
    (40001 : Int) ≤ get_padded_length 40001 ∧
    get_padded_length 40001 < (40001 : Int) + 32 :=
  C2_padded_length_amended.1 40001 (by norm_num)

/-- Folding `u8` wrapping addition over a list starting from a reduced
accumulator computes the modulo-256 sum. -/
lemma foldl_add_mod256 (l : List Nat) :
    ∀ a : Nat, a < 256 →
      l.foldl (fun x b => (x + b) % 256) a = (a + l.sum) % 256 := by
  induction l with
  | nil =>
    intro a ha
    simp [Nat.mod_eq_of_lt ha]
  | cons b t ih =>
    intro a ha
    simp only [List.foldl_cons, List.sum_cons]
    rw [ih _ (Nat.mod_lt _ (by norm_num)), Nat.mod_add_mod, Nat.add_assoc]

/-- C3: byte 3 of every constructed packet is the modulo-256 sum of the
32 payload bytes of the padded block (the zero-filled tail of the terminal
block is part of the chunk, hence included); in particular a payload of 32
bytes `0x01` yields checksum `0x20` and a payload of 32 bytes `0xFF` yields
checksum `0xE0`. -/
theorem C3_checksum :
    (∀ (padded : List Nat) (len : Int) (blk : Nat),
      (mkPacket padded len blk)[3]? = some ((chunkOf padded blk).sum % 256)) ∧
    (mkPacket (List.replicate 32 0x01) 32 0)[3]? = some 0x20 ∧
    (mkPacket (List.replicate 32 0xff) 32 0)[3]? = some 0xe0 := by
  refine ⟨?_, by decide, by decide⟩
  intro padded len blk
  simp only [mkPacket, List.getElem?_cons_succ, List.getElem?_cons_zero]
  rw [foldl_add_mod256 _ 0 (by norm_num), Nat.zero_add]

/-- C9: `read_byte_compat` returns `-1` exactly when the transport read
fails, and on success returns the buffer byte, which lies in `[0, 255]`;
hence the `-1` sentinel never collides with a real byte value. -/
theorem C9_read_byte_compat :
    (∀ r : Option Nat, read_byte_compat r = -1 ↔ r = none) ∧
    (∀ b : Nat, b < 256 →
      read_byte_compat (some b) = (b : Int) ∧
      0 ≤ read_byte_compat (some b) ∧
      read_byte_compat (some b) ≤ 255) := by
  constructor
  · intro r
    cases r with
    | none => simp [read_byte_compat]
    | some b =>
      simp only [read_byte_compat]
      constructor
      · intro h
        exfalso
        have hb : (0 : Int) ≤ (b : Int) := Int.ofNat_nonneg b
        omega
      · intro h
        exact absurd h (by simp)
  · intro b hb
    refine ⟨rfl, Int.ofNat_nonneg b, ?_⟩
    show (b : Int) ≤ 255
    exact_mod_cast Nat.lt_succ_iff.mp hb

/-- C9 witness: the helper at the concrete byte `0x42`. -/
theorem C9_read_byte_compat_witness :
    read_byte_compat (some 0x42) = (0x42 : Int) ∧
    0 ≤ read_byte_compat (some 0x42) ∧
    read_byte_compat (some 0x42) ≤ 255 :=
  C9_read_byte_compat.2 0x42 (by norm_num)

/-- The init sequence literal of `upload_firmware` (src/main.rs lines
111-115), transcribed byte for byte: `0xA0 0xEE 0x74 0x71 0x07 0x74`
followed by thirty `0x55` bytes — 36 bytes in total. -/
def initSeq : List Nat :=
  [0xA0, 0xEE, 0x74, 0x71, 0x07, 0x74, 0x55, 0x55,
   0x55, 0x55, 0x55, 0x55, 0x55, 0x55, 0x55, 0x55,
   0x55, 0x55, 0x55, 0x55, 0x55, 0x55, 0x55, 0x55,
   0x55, 0x55, 0x55, 0x55, 0x55, 0x55, 0x55, 0x55,
   0x55, 0x55, 0x55, 0x55]

/-- Outcome of the handshake loop of `upload_firmware` (src/main.rs lines
101-126). `armed` is the only normal exit (`break` with `found` set);
`unexpected` is the `exit(InitWriteError)` taken on a byte that is neither
`-1` nor `0xa5`; `initWriteErr` is the `exit(InitWriteError)` taken when the
init write fails; `stillWaiting found` records that the read script ran out
while the loop would still be polling (the real loop would keep issuing
blocking reads). -/
inductive HsOutcome where
  | armed
  | unexpected
  | initWriteErr
  | stillWaiting (found : Bool)
  deriving DecidableEq

/-- Embedding of the handshake loop of `upload_firmware` (src/main.rs lines
101-126), driven by a script of `port.read` outcomes (as consumed through
`read_byte_compat`) and a flag saying whether the single possible init write
succeeds.  Returns the loop outcome and the list of transport writes
performed (each write is the byte sequence passed to `write_all`). -/
def runHandshake (initOk : Bool) :
    List (Option Nat) → Bool → HsOutcome × List (List Nat)
  | [], found => (.stillWaiting found, [])
  | r :: rs, found =>
    let byte := read_byte_compat r
    if byte = -1 then
      if found then (.armed, []) else runHandshake initOk rs found
    else if byte = 0xa5 then
      if found then runHandshake initOk rs found
      else if initOk then
        let res := runHandshake initOk rs true
        (res.1, initSeq :: res.2)
      else (.initWriteErr, [])
    else (.unexpected, [])

/-- C1 counterexample: on first sight of the sentinel the program does not
write the 34-byte sequence the claim describes (header plus 28 bytes of
`0x55`); the write it performs has 36 bytes. -/
theorem C1_init_sequence_counterexample :
    (runHandshake true [some 0xa5, none] false).2 ≠
      [[0xA0, 0xEE, 0x74, 0x71, 0x07, 0x74] ++ List.replicate 28 0x55] ∧
    initSeq.length ≠ 34 := by
  constructor
  · decide
  · decide

/-- C1 (amended): upon the first observation of the sentinel byte `0xA5`
during handshake (i.e. a `0xA5` read while not yet found), the program
writes to the transport exactly one init sequence, namely the 36-byte
sequence `A0 EE 74 71 07 74` followed by 30 bytes of value `0x55`. -/
theorem C1_init_sequence_amended :
    ∀ rs : List (Option Nat),
      runHandshake true (some 0xa5 :: rs) false =
        ((runHandshake true rs true).1,
          initSeq :: (runHandshake true rs true).2) ∧
      initSeq = [0xA0, 0xEE, 0x74, 0x71, 0x07, 0x74] ++ List.replicate 30 0x55 ∧
      initSeq.length = 36 := by
  intro rs
  refine ⟨?_, by decide, by decide⟩
  simp [runHandshake, read_byte_compat]

/-- Repeat sentinel bytes while the detector is already armed are no-ops:
they change neither the outcome nor the writes. -/
lemma runHandshake_armed_sentinel (initOk : Bool) :
    ∀ (N : Nat) (rest : List (Option Nat)),
      runHandshake initOk (List.replicate N (some 0xa5) ++ rest) true =
        runHandshake initOk rest true := by
  intro N
  induction N with
  | zero => intro rest; simp
  | succ k ih =>
    intro rest
    simp only [List.replicate_succ, List.cons_append]
    simp only [runHandshake, read_byte_compat]
    norm_num
    exact ih rest

/-- C6: for every `N ≥ 1`, a transport that emits the sentinel `0xA5` exactly
`N` consecutive times (then reports no data) drives the detector from
waiting to armed with the init sequence written exactly once; moreover any
run of sentinel bytes seen while already armed is a no-op. -/
theorem C6_handshake_arm_once :
    ∀ N : Nat, 1 ≤ N →
      runHandshake true (List.replicate N (some 0xa5) ++ [none]) false =
        (HsOutcome.armed, [initSeq]) ∧
      (∀ (initOk : Bool) (rest : List (Option Nat)),
        runHandshake initOk (List.replicate N (some 0xa5) ++ rest) true =
          runHandshake initOk rest true) := by
  intro N hN
  constructor
  · obtain ⟨k, rfl⟩ : ∃ k, N = k + 1 := ⟨N - 1, by omega⟩
    simp only [List.replicate_succ, List.cons_append]
    simp only [runHandshake, read_byte_compat]
    norm_num
    rw [runHandshake_armed_sentinel true k [none]]
    simp [runHandshake, read_byte_compat]
  · intro initOk rest
    exact runHandshake_armed_sentinel initOk N rest

/-- C6 witness: three consecutive sentinels arm the detector once. -/
theorem C6_handshake_arm_once_witness :
    runHandshake true (List.replicate 3 (some 0xa5) ++ [none]) false =
      (HsOutcome.armed, [initSeq]) :=
  (C6_handshake_arm_once 3 (by norm_num)).1

/-- Transport behaviour for one iteration of the block loop of
`upload_firmware` (src/main.rs lines 136-169): whether `write_all` of the
packet succeeds, whether `flush` succeeds, and whether the acknowledgement
`port.read` returns `Ok`.  `ackCount` is the `usize` carried by an `Ok`
result (it may be `0`) and `ackByte` the byte left in the 1-byte ack buffer;
the source inspects neither — it only branches on `Ok` versus `Err`. -/
structure TrEvent where
  writeOk : Bool
  flushOk : Bool
  ackOk : Bool
  ackCount : Nat
  ackByte : Nat
  deriving DecidableEq

/-- A transport operation performed by the transfer loop. -/
inductive Op where
  | write (bytes : List Nat)
  | flush
  | readAck
  deriving DecidableEq

/-- Termination status of the block loop: `success` is falling off the end of
the `for` loop (followed by `exit(0)`); `writeErr off` is the
`exit(WriteError)` from a failed `write_all` at byte offset `off = blk*32`;
`flushErr` is the `exit(WriteError)` from a failed `flush`; `ackErr off` is
the `exit(AckError)` from a failed acknowledgement read; `stalled` records
that the event script ran out with blocks remaining (the real loop would
block on the transport). -/
inductive TrOutcome where
  | success
  | writeErr (off : Int)
  | flushErr
  | ackErr (off : Int)
  | stalled
  deriving DecidableEq

/-- Result of running the block loop: its termination status, the packets
whose `write_all` completed successfully, and the exact sequence of
transport operations performed. -/
structure TrResult where
  outcome : TrOutcome
  packets : List (List Nat)
  trace : List Op
  deriving DecidableEq

/-- Process exit code produced by a block-loop outcome: `upload_firmware`
calls `exit(0)` after the loop (src/main.rs line 171), `exit(WriteError)` on
a write or flush failure (lines 154-162), and `exit(AckError)` on an
acknowledgement read failure (lines 163-168). -/
def trExitCode : TrOutcome → Option Nat
  | .success => some ExitCodes.Ok
  | .writeErr _ => some ExitCodes.WriteError
  | .flushErr => some ExitCodes.WriteError
  | .ackErr _ => some ExitCodes.AckError
  | .stalled => none

/-- Embedding of the block loop of `upload_firmware` (src/main.rs lines
136-169) over an explicit list of block indices (the source iterates
`blk in 0..(len/32)`) and a script of transport events, one per block.
Per block: build the packet, attempt `write_all` (failure exits with the
byte offset `blk*32`), then `flush` (failure exits with `WriteError`), then
read one acknowledgement byte (failure exits with `AckError` at offset
`blk*32`); on success move to the next block.  The progress print every 64th
block (lines 138-141) is console-only and not modelled. -/
def runBlks (padded : List Nat) (len : Int) :
    List Nat → List TrEvent → TrResult
  | [], _ => ⟨.success, [], []⟩
  | _ :: _, [] => ⟨.stalled, [], []⟩
  | blk :: rest, e :: es =>
    let packet := mkPacket padded len blk
    if e.writeOk then
      if e.flushOk then
        if e.ackOk then
          let r := runBlks padded len rest es
          ⟨r.outcome, packet :: r.packets,
            Op.write packet :: Op.flush :: Op.readAck :: r.trace⟩
        else ⟨.ackErr ((blk : Int) * 32), [packet],
          [Op.write packet, Op.flush, Op.readAck]⟩
      else ⟨.flushErr, [packet], [Op.write packet, Op.flush]⟩
    else ⟨.writeErr ((blk : Int) * 32), [], [Op.write packet]⟩

/-- The three transport operations a fully processed block performs, in
order. -/
def blockTrace (padded : List Nat) (len : Int) (blk : Nat) : List Op :=
  [Op.write (mkPacket padded len blk), Op.flush, Op.readAck]

/-- An event whose write, flush and acknowledgement all succeed. -/
def TrEvent.allOk (e : TrEvent) : Prop :=
  e.writeOk = true ∧ e.flushOk = true ∧ e.ackOk = true

/-- Running the block loop through a fully successful prefix prepends that
prefix's packets and operations to whatever the rest of the loop does. -/
lemma runBlks_append (padded : List Nat) (len : Int) :
    ∀ (blks₁ : List Nat) (es₁ : List TrEvent) (blks₂ : List Nat)
      (es₂ : List TrEvent),
      es₁.length = blks₁.length → (∀ e ∈ es₁, e.allOk) →
      runBlks padded len (blks₁ ++ blks₂) (es₁ ++ es₂) =
        ⟨(runBlks padded len blks₂ es₂).outcome,
          blks₁.map (mkPacket padded len) ++
            (runBlks padded len blks₂ es₂).packets,
          blks₁.flatMap (blockTrace padded len) ++
            (runBlks padded len blks₂ es₂).trace⟩ := by
  intro blks₁
  induction blks₁ with
  | nil =>
    intro es₁ blks₂ es₂ hlen _
    have : es₁ = [] := List.eq_nil_of_length_eq_zero hlen
    subst this
    simp
  | cons b bs ih =>
    intro es₁ blks₂ es₂ hlen hok
    cases es₁ with
    | nil => simp at hlen
    | cons e es =>
      obtain ⟨hw, hf, ha⟩ := hok e (by simp)
      simp only [List.cons_append]
      rw [runBlks]
      simp only [hw, hf, ha, if_true]
      rw [ih es blks₂ es₂ (by simpa using hlen)
        (fun e' he' => hok e' (by simp [he']))]
      simp [blockTrace]

/-- For `n ≥ 6`, the block-index range splits into the first five blocks,
block 5, and the remainder. -/
lemma range_split_at_5 (k : Nat) :
    List.range (6 + k) = [0, 1, 2, 3, 4] ++ 5 :: List.range' 6 k := by
  rw [List.range_eq_range', Nat.add_comm 6 k, ← List.range'_append_1 0 6 k]
  rfl

/-- C7: with the first five blocks fully acknowledged, a `write_all` failure
on block index 5 terminates the loop with byte offset `160 = 5*32`, exit
code `WriteError = 5`, and no packet of block 5 or beyond on the wire; a
`flush` failure on block 5 is treated identically (same exit code, same
immediate termination with nothing sent beyond block 5). -/
theorem C7_block5_write_failure :
    ∀ (padded : List Nat) (len : Int) (n : Nat) (es : List TrEvent)
      (e5 : TrEvent) (rest : List TrEvent),
      6 ≤ n → es.length = 5 → (∀ e ∈ es, e.allOk) →
      (e5.writeOk = false →
        runBlks padded len (List.range n) (es ++ e5 :: rest) =
          ⟨.writeErr 160, [0, 1, 2, 3, 4].map (mkPacket padded len),
            [0, 1, 2, 3, 4].flatMap (blockTrace padded len) ++
              [Op.write (mkPacket padded len 5)]⟩) ∧
      (e5.writeOk = true → e5.flushOk = false →
        runBlks padded len (List.range n) (es ++ e5 :: rest) =
          ⟨.flushErr, [0, 1, 2, 3, 4, 5].map (mkPacket padded len),
            [0, 1, 2, 3, 4].flatMap (blockTrace padded len) ++
              [Op.write (mkPacket padded len 5), Op.flush]⟩) ∧
      trExitCode (TrOutcome.writeErr 160) = some ExitCodes.WriteError ∧
      trExitCode TrOutcome.flushErr = some ExitCodes.WriteError ∧
      ExitCodes.WriteError = 5 := by
  intro padded len n es e5 rest hn hlen hok
  obtain ⟨k, rfl⟩ : ∃ k, n = 6 + k := ⟨n - 6, by omega⟩
  have hsplit := range_split_at_5 k
  have happ := runBlks_append padded len [0, 1, 2, 3, 4] es
    (5 :: List.range' 6 k) (e5 :: rest) (by simpa using hlen) hok
  refine ⟨?_, ?_, rfl, rfl, rfl⟩
  · intro hw
    rw [hsplit, happ, runBlks]
    simp [hw]
  · intro hw hf
    rw [hsplit, happ, runBlks]
    simp [hw, hf, List.map_cons]

/-- C7 witness: the failure scenario at concrete inputs. -/
theorem C7_block5_write_failure_witness :
    runBlks [] 0 (List.range 6)
        (List.replicate 5 ⟨true, true, true, 1, 0⟩ ++
          ⟨false, true, true, 1, 0⟩ :: []) =
      ⟨.writeErr 160, [0, 1, 2, 3, 4].map (mkPacket [] 0),
        [0, 1, 2, 3, 4].flatMap (blockTrace [] 0) ++
          [Op.write (mkPacket [] 0 5)]⟩ :=
  (C7_block5_write_failure [] 0 6 (List.replicate 5 ⟨true, true, true, 1, 0⟩)
    ⟨false, true, true, 1, 0⟩ [] (by norm_num) (by decide)
    (by
      intro e he
      have h := List.eq_of_mem_replicate he
      subst h
      exact ⟨rfl, rfl, rfl⟩)).1 rfl

/-- C8: the sequence of transport operations performed by the block loop is
always an initial segment of the canonical per-block
`write → flush → ack-read` sequence — so the loop never flushes before
writing, never reads an acknowledgement before flushing, reads exactly one
acknowledgement per block, and never writes block `N+1` before block `N`'s
acknowledgement read — and a run that completes successfully performs the
canonical sequence in full. -/
theorem C8_strict_block_sequence :
    ∀ (padded : List Nat) (len : Int) (blks : List Nat) (es : List TrEvent),
      (∃ t, (runBlks padded len blks es).trace ++ t =
        blks.flatMap (blockTrace padded len)) ∧
      ((runBlks padded len blks es).outcome = TrOutcome.success →
        (runBlks padded len blks es).trace =
          blks.flatMap (blockTrace padded len)) := by
  intro padded len blks
  induction blks with
  | nil =>
    intro es
    exact ⟨⟨[], by simp [runBlks]⟩, fun _ => by simp [runBlks]⟩
  | cons b bs ih =>
    intro es
    cases es with
    | nil =>
      refine ⟨⟨(b :: bs).flatMap (blockTrace padded len), by simp [runBlks]⟩, ?_⟩
      intro h
      simp [runBlks] at h
    | cons e es' =>
      rcases e with ⟨w, f, a, c, y⟩
      obtain ⟨⟨t, ht⟩, himp⟩ := ih es'
      cases w
      · refine ⟨⟨Op.flush :: Op.readAck :: bs.flatMap (blockTrace padded len), ?_⟩, ?_⟩
        · simp [runBlks, blockTrace]
        · intro h
          simp [runBlks] at h
      · cases f
        · refine ⟨⟨Op.readAck :: bs.flatMap (blockTrace padded len), ?_⟩, ?_⟩
          · simp [runBlks, blockTrace]
          · intro h
            simp [runBlks] at h
        · cases a
          · refine ⟨⟨bs.flatMap (blockTrace padded len), ?_⟩, ?_⟩
            · simp [runBlks, blockTrace]
            · intro h
              simp [runBlks] at h
          · refine ⟨⟨t, ?_⟩, ?_⟩
            · simpa [runBlks, blockTrace] using ht
            · intro h
              have h' : (runBlks padded len bs es').outcome = TrOutcome.success := by
                simpa [runBlks] using h
              simpa [runBlks, blockTrace] using himp h'

/-- C8 witness: one fully acknowledged block performs exactly
write, flush, ack-read. -/
theorem C8_strict_block_sequence_witness :
    (runBlks (List.replicate 32 0) 32 [0] [⟨true, true, true, 1, 0⟩]).trace =
      [0].flatMap (blockTrace (List.replicate 32 0) 32) :=
  (C8_strict_block_sequence (List.replicate 32 0) 32 [0]
    [⟨true, true, true, 1, 0⟩]).2 (by decide)

/-- The part of a transfer event the block loop actually inspects: the
success flags of write, flush and acknowledgement read. -/
def TrEvent.flags (e : TrEvent) : Bool × Bool × Bool :=
  (e.writeOk, e.flushOk, e.ackOk)

/-- C10: the block loop never inspects the acknowledgement's byte count or
byte value — any two event scripts with the same success flags (however the
acknowledgement payloads differ, zero-length reads included) produce the
identical result: same packets on the wire, same operation trace, same
termination status. -/
theorem C10_ack_value_independence :
    ∀ (padded : List Nat) (len : Int) (blks : List Nat)
      (es₁ es₂ : List TrEvent),
      es₁.map TrEvent.flags = es₂.map TrEvent.flags →
      runBlks padded len blks es₁ = runBlks padded len blks es₂ := by
  intro padded len blks
  induction blks with
  | nil =>
    intro es₁ es₂ _
    cases es₁ <;> cases es₂ <;> rfl
  | cons b bs ih =>
    intro es₁ es₂ h
    cases es₁ with
    | nil =>
      cases es₂ with
      | nil => rfl
      | cons e₂ t₂ => simp at h
    | cons e₁ t₁ =>
      cases es₂ with
      | nil => simp at h
      | cons e₂ t₂ =>
        simp only [List.map_cons, List.cons.injEq] at h
        obtain ⟨hf, ht⟩ := h
        rcases e₁ with ⟨w1, f1, a1, c1, y1⟩
        rcases e₂ with ⟨w2, f2, a2, c2, y2⟩
        simp only [TrEvent.flags, Prod.mk.injEq] at hf
        obtain ⟨hw, hfl, hak⟩ := hf
        subst hw; subst hfl; subst hak
        cases w1 <;> cases f1 <;> cases a1 <;>
          simp [runBlks, ih t₁ t₂ ht]

/-- C10 witness: two scripts whose acknowledgement payloads differ (one a
1-byte read, one a zero-byte read with a different buffer value) yield the
identical transfer result. -/
theorem C10_ack_value_independence_witness :
    runBlks (List.replicate 32 0) 32 [0] [⟨true, true, true, 1, 0⟩] =
      runBlks (List.replicate 32 0) 32 [0] [⟨true, true, true, 0, 0x99⟩] :=
  C10_ack_value_independence (List.replicate 32 0) 32 [0]
    [⟨true, true, true, 1, 0⟩] [⟨true, true, true, 0, 0x99⟩] rfl

/-- `Vec::resize(n, 0)`: truncate to `n` elements or extend with zeros. -/
def listResize (l : List Nat) (n : Nat) : List Nat :=
  l.take n ++ List.replicate (n - l.length) 0

/-- The padded firmware buffer of `upload_firmware` (src/main.rs lines
130-134): the raw bytes, and when the raw length differs from the padded
length, the buffer resized (defensively over-allocated) to
`padded_length + 32` with zero fill.  The `as usize` casts are modelled by
`Int.toNat`, exact for the non-negative lengths reachable here. -/
def paddedOf (data : List Nat) : List Nat :=
  let len := get_padded_length data.length
  if data.length = len.toNat then data else listResize data (len + 32).toNat

/-- Number of loop iterations of `for blk in 0..(len/32)`
(src/main.rs line 136): `i32` division truncates toward zero, so a
non-negative `len` gives `len.toNat / 32` blocks and a negative `len` gives
none — both captured by `Int.toNat` before the division. -/
def nBlocks (data : List Nat) : Nat :=
  (get_padded_length data.length).toNat / 32

/-- `check_firmware` (src/main.rs lines 76-82) rejects exactly when the
computed padded length is below 40000 or above 65536. -/
def check_firmware_rejects (contentLen : Nat) : Bool :=
  let len := get_padded_length contentLen
  decide (len < 40000) || decide (len > 65536)

/-- Result of a full `upload_firmware` run: the process exit code (`none`
while the program would still be blocked on the transport), every byte
sequence passed to `write_all`, and the transfer-phase operation trace. -/
structure UploadResult where
  exitCode : Option Nat
  writes : List (List Nat)
  trace : List Op
  deriving DecidableEq

/-- Embedding of `upload_firmware` (src/main.rs lines 100-172): run the
handshake loop; once armed, compute the padded length, pad the buffer, and
run the block loop; the loop's termination maps to the process exit code
(`exit(0)` on completion, line 171).  A handshake protocol violation or init
write failure exits with `InitWriteError` (lines 116-124). -/
def upload_firmware (data : List Nat) (initOk : Bool)
    (hsReads : List (Option Nat)) (events : List TrEvent) : UploadResult :=
  let hs := runHandshake initOk hsReads false
  match hs.1 with
  | .armed =>
    let r := runBlks (paddedOf data) (get_padded_length data.length)
      (List.range (nBlocks data)) events
    ⟨trExitCode r.outcome, hs.2 ++ r.packets, r.trace⟩
  | .unexpected => ⟨some ExitCodes.InitWriteError, hs.2, []⟩
  | .initWriteErr => ⟨some ExitCodes.InitWriteError, hs.2, []⟩
  | .stillWaiting _ => ⟨none, hs.2, []⟩

/-- A 40000-byte all-zero firmware image. -/
def zeroFw : List Nat := List.replicate 40000 0

/-- A transport event whose write, flush and 1-byte acknowledgement (byte
`0x00`) all succeed. -/
def okEv : TrEvent := ⟨true, true, true, 1, 0⟩

/-- General half of the transfer-completeness argument: a validated firmware
with an all-successful event script of the right length yields a successful
run sending one packet per block, with opcode `0xA1` everywhere except
`0xA2` on the final block. -/
lemma transfer_ok_general :
    ∀ (data : List Nat) (es : List TrEvent),
      check_firmware_rejects data.length = false →
      es.length = nBlocks data →
      (∀ e ∈ es, e.allOk) →
      1 ≤ nBlocks data ∧
      runBlks (paddedOf data) (get_padded_length data.length)
          (List.range (nBlocks data)) es =
        ⟨TrOutcome.success,
          (List.range (nBlocks data)).map
            (mkPacket (paddedOf data) (get_padded_length data.length)),
          (List.range (nBlocks data)).flatMap
            (blockTrace (paddedOf data) (get_padded_length data.length))⟩ ∧
      (List.range (nBlocks data)).map
          (fun blk => (mkPacket (paddedOf data)
            (get_padded_length data.length) blk).head?) =
        (List.range (nBlocks data)).map
          (fun blk => some (if blk + 1 = nBlocks data then 0xa2 else 0xa1)) := by
  intro data es hchk hlen hok
  have hb : 40000 ≤ get_padded_length data.length ∧
      get_padded_length data.length ≤ 65536 := by
    simp only [check_firmware_rejects, Bool.or_eq_false_iff,
      decide_eq_false_iff_not, not_lt, gt_iff_lt] at hchk
    exact ⟨hchk.1, hchk.2⟩
  have hmod := get_padded_length_mod32 data.length
  have hnb : ((nBlocks data : Nat) : Int) * 32 = get_padded_length data.length := by
    unfold nBlocks
    omega
  have h1n : 1 ≤ nBlocks data := by omega
  refine ⟨h1n, ?_, ?_⟩
  · have happ := runBlks_append (paddedOf data) (get_padded_length data.length)
      (List.range (nBlocks data)) es [] [] (by simpa using hlen) hok
    have hbase : runBlks (paddedOf data) (get_padded_length data.length)
        ([] : List Nat) ([] : List TrEvent) = ⟨.success, [], []⟩ := rfl
    rw [hbase] at happ
    simpa using happ
  · apply List.map_congr_left
    intro blk hblk
    have hblt : blk < nBlocks data := List.mem_range.mp hblk
    have hcond : ((blk : Int) * 32 + 32 ≥ get_padded_length data.length) ↔
        blk + 1 = nBlocks data := by
      constructor <;> intro h <;> omega
    simp only [mkPacket, List.head?_cons, hcond]

/-- Scenario half: any 40000-byte firmware, uploaded over a transport that
emits `0xA5` three times then silence and acknowledges every packet,
produces the init sequence plus 1250 packets and the success exit code. -/
lemma upload_scenario_ok :
    ∀ data : List Nat, data.length = 40000 →
      (upload_firmware data true [some 0xa5, some 0xa5, some 0xa5, none]
          (List.replicate 1250 okEv)).exitCode = some ExitCodes.Ok ∧
      (upload_firmware data true [some 0xa5, some 0xa5, some 0xa5, none]
          (List.replicate 1250 okEv)).writes =
        initSeq :: (List.range 1250).map (mkPacket data 40000) ∧
      ((List.range 1250).map (mkPacket data 40000)).length = 1250 ∧
      (List.range 1250).map (fun blk => (mkPacket data 40000 blk).head?) =
        (List.range 1250).map
          (fun blk => some (if blk + 1 = 1250 then 0xa2 else 0xa1)) ∧
      ExitCodes.Ok = 0 := by
  intro data hlen
  have hgl40 : get_padded_length (40000 : Nat) = 40000 := by decide
  have hgl : get_padded_length data.length = 40000 := by
    rw [hlen, hgl40]
  have hpad : paddedOf data = data := by
    simp only [paddedOf, hlen, hgl40]
    rfl
  have hn : nBlocks data = 1250 := by
    simp only [nBlocks, hlen, hgl40]
    rfl
  have hok : ∀ e ∈ List.replicate 1250 okEv, e.allOk := by
    intro e he
    have h := List.eq_of_mem_replicate he
    subst h
    exact ⟨rfl, rfl, rfl⟩
  obtain ⟨-, hrun, hops⟩ := transfer_ok_general data (List.replicate 1250 okEv)
    (by rw [hlen]; decide) (by simp only [List.length_replicate, hn]) hok
  rw [hpad, hgl, hn] at hrun hops
  have hhs : runHandshake true [some 0xa5, some 0xa5, some 0xa5, none] false =
      (HsOutcome.armed, [initSeq]) := by decide
  have hup : upload_firmware data true [some 0xa5, some 0xa5, some 0xa5, none]
      (List.replicate 1250 okEv) =
      ⟨some ExitCodes.Ok,
        initSeq :: (List.range 1250).map (mkPacket data 40000),
        (List.range 1250).flatMap (blockTrace data 40000)⟩ := by
    simp only [upload_firmware, hhs, hpad, hgl, hn, hrun]
    rfl
  rw [hup]
  refine ⟨rfl, rfl, by simp, hops, rfl⟩

/-- C4: for every firmware that passes size validation, a run whose
transport acknowledges every packet sends exactly `padded_length / 32`
packets, with opcode `0xA1` on every block except the last, which carries
`0xA2`; and the end-to-end scenario — any 40000-byte firmware image (the
all-zero one in particular, see the witness), a transport emitting `0xA5`
three times then silence and acknowledging every packet with byte `0x00` —
sends the init sequence plus exactly `1250` packets, the 1250th with opcode
`0xA2`, and terminates with the success exit code. -/
theorem C4_transfer_sends_all_blocks :
    (∀ (data : List Nat) (es : List TrEvent),
      check_firmware_rejects data.length = false →
      es.length = nBlocks data →
      (∀ e ∈ es, e.allOk) →
      1 ≤ nBlocks data ∧
      runBlks (paddedOf data) (get_padded_length data.length)
          (List.range (nBlocks data)) es =
        ⟨TrOutcome.success,
          (List.range (nBlocks data)).map
            (mkPacket (paddedOf data) (get_padded_length data.length)),
          (List.range (nBlocks data)).flatMap
            (blockTrace (paddedOf data) (get_padded_length data.length))⟩ ∧
      (List.range (nBlocks data)).map
          (fun blk => (mkPacket (paddedOf data)
            (get_padded_length data.length) blk).head?) =
        (List.range (nBlocks data)).map
          (fun blk => some (if blk + 1 = nBlocks data then 0xa2 else 0xa1))) ∧
    (∀ data : List Nat, data.length = 40000 →
      (upload_firmware data true [some 0xa5, some 0xa5, some 0xa5, none]
          (List.replicate 1250 okEv)).exitCode = some ExitCodes.Ok ∧
      (upload_firmware data true [some 0xa5, some 0xa5, some 0xa5, none]
          (List.replicate 1250 okEv)).writes =
        initSeq :: (List.range 1250).map (mkPacket data 40000) ∧
      ((List.range 1250).map (mkPacket data 40000)).length = 1250 ∧
      (List.range 1250).map (fun blk => (mkPacket data 40000 blk).head?) =
        (List.range 1250).map
          (fun blk => some (if blk + 1 = 1250 then 0xa2 else 0xa1)) ∧
      ExitCodes.Ok = 0) :=
  ⟨transfer_ok_general, upload_scenario_ok⟩

/-- C4 witness: the end-to-end scenario at the concrete 40000-byte all-zero
firmware image. -/
theorem C4_transfer_sends_all_blocks_witness :
    (upload_firmware zeroFw true [some 0xa5, some 0xa5, some 0xa5, none]
        (List.replicate 1250 okEv)).exitCode = some ExitCodes.Ok ∧
      (upload_firmware zeroFw true [some 0xa5, some 0xa5, some 0xa5, none]
          (List.replicate 1250 okEv)).writes =
        initSeq :: (List.range 1250).map (mkPacket zeroFw 40000) ∧
      ((List.range 1250).map (mkPacket zeroFw 40000)).length = 1250 ∧
      (List.range 1250).map (fun blk => (mkPacket zeroFw 40000 blk).head?) =
        (List.range 1250).map
          (fun blk => some (if blk + 1 = 1250 then 0xa2 else 0xa1)) ∧
      ExitCodes.Ok = 0 :=
  C4_transfer_sends_all_blocks.2 zeroFw
    (by simp only [zeroFw, List.length_replicate])

/-- The phases of `main` (src/main.rs lines 22-49), in program order:
argument handling aside, `main` runs `pre_check_firmware`, `read_firmware`,
`check_firmware`, `open_port`, then `upload_firmware`. -/
inductive MainOp where
  | preCheck
  | readFile
  | checkFw
  | openPort
  | upload
  deriving DecidableEq

/-- Phase-order model of `main` (src/main.rs lines 33-48) for a firmware
file that reads successfully with `contentLen` bytes: the phases executed,
and `some code` if the program exits during them (`check_firmware` exits
with `FilesizeError` on a bad padded length, line 80), else `none`
(the program continues into the upload, whose exit code is determined by
`upload_firmware`). -/
def main_model (contentLen : Nat) : List MainOp × Option Nat :=
  if check_firmware_rejects contentLen then
    ([.preCheck, .readFile, .checkFw], some ExitCodes.FilesizeError)
  else
    ([.preCheck, .readFile, .checkFw, .openPort, .upload], none)

/-- C5 counterexample: the raw firmware length `4295007266` has true padded
length `ceil(4295007266/32)*32 = 4295007296`, far above 65536, so the claim
demands rejection with the firmware-size error before the device is opened —
yet the program's `i32` computation wraps that padded length to `40000`,
validation passes, and `main` proceeds to open the serial device. -/
theorem C5_size_validation_counterexample :
    (4295007266 + 31) / 32 * 32 = 4295007296 ∧
    (65536 : Nat) < (4295007266 + 31) / 32 * 32 ∧
    get_padded_length 4295007266 = 40000 ∧
    check_firmware_rejects 4295007266 = false ∧
    (main_model 4295007266).2 = none ∧
    MainOp.openPort ∈ (main_model 4295007266).1 := by
  refine ⟨by norm_num, by norm_num, by decide, by decide, by decide, by decide⟩

/-- C5 (amended): for every raw firmware length `contentLen ≤ 2147483616`
(so that the `i32` padded-length computation does not overflow — larger
lengths can wrap into the accepted range, see the counterexample), a padded
length `ceil(contentLen/32)*32` outside `[40000, 65536]` makes the program
exit with the firmware-size error code 2 before the serial device is ever
opened, while a padded length inside the range passes validation and reaches
the device-open phase; the boundary padded lengths 39968 and 65568 are
rejected and 40000 and 65536 accepted. -/
theorem C5_size_validation_amended :
    (∀ contentLen : Nat, contentLen ≤ 2147483616 →
      (((contentLen + 31) / 32 * 32 < 40000 ∨
          65536 < (contentLen + 31) / 32 * 32) →
        (main_model contentLen).2 = some ExitCodes.FilesizeError ∧
        MainOp.openPort ∉ (main_model contentLen).1 ∧
        MainOp.upload ∉ (main_model contentLen).1) ∧
      ((40000 ≤ (contentLen + 31) / 32 * 32 ∧
          (contentLen + 31) / 32 * 32 ≤ 65536) →
        check_firmware_rejects contentLen = false ∧
        (main_model contentLen).2 = none ∧
        MainOp.openPort ∈ (main_model contentLen).1)) ∧
    ExitCodes.FilesizeError = 2 ∧
    get_padded_length 39968 = 39968 ∧ check_firmware_rejects 39968 = true ∧
    get_padded_length 40000 = 40000 ∧ check_firmware_rejects 40000 = false ∧
    get_padded_length 65536 = 65536 ∧ check_firmware_rejects 65536 = false ∧
    get_padded_length 65568 = 65568 ∧ check_firmware_rejects 65568 = true := by
  refine ⟨?_, rfl, by decide, by decide, by decide, by decide, by decide,
    by decide, by decide, by decide⟩
  intro contentLen hlen
  have heq := get_padded_length_eq contentLen hlen
  constructor
  · intro h
    have hrej : check_firmware_rejects contentLen = true := by
      simp only [check_firmware_rejects, Bool.or_eq_true, decide_eq_true_eq,
        gt_iff_lt]
      rw [heq]
      omega
    simp [main_model, hrej]
  · intro h
    have hrej : check_firmware_rejects contentLen = false := by
      simp only [check_firmware_rejects, Bool.or_eq_false_iff,
        decide_eq_false_iff_not, not_lt, gt_iff_lt]
      rw [heq]
      omega
    simp [main_model, hrej]

/-- C5 witness: padded length 39968 (raw length 39968, below the overflow
bound) is rejected with exit code 2 before the device-open phase. -/
theorem C5_size_validation_witness :
    (main_model 39968).2 = some ExitCodes.FilesizeError ∧
    MainOp.openPort ∉ (main_model 39968).1 ∧
    MainOp.upload ∉ (main_model 39968).1 :=
  (C5_size_validation_amended.1 39968 (by norm_num)).1 (by norm_num)

end TDH3Flash
